import Mathlib

/-!
Verification of the ScrapCo admin backend core: credential resolution
(supabase/client.js), the admin authorization gate and the versioned rate
manager (routes/admin.js). The environment is modelled as a partial map from
variable names to string values; JavaScript truthiness of env strings is
modelled explicitly (absent and empty strings are falsy, every other string
is truthy). JavaScript trim and toLowerCase are modelled by structural
functions over the character list so that concrete instances evaluate.
-/

namespace ScrapCo

/-- Model of JavaScript String.prototype.trim: strip leading and trailing
whitespace. -/
def strTrim (s : String) : String :=
  ⟨((s.data.dropWhile Char.isWhitespace).reverse.dropWhile Char.isWhitespace).reverse⟩

/-- Model of JavaScript String.prototype.toLowerCase over the characters the
backend compares (ASCII). -/
def strToLower (s : String) : String :=
  ⟨s.data.map Char.toLower⟩

/-- JavaScript truthiness of an optional string: undefined and the empty
string are falsy, every other string is truthy. -/
def jsTruthy : Option String → Bool
  | none => false
  | some s => !(s == "")

/-- JavaScript a || b over optional strings. -/
def jsOr (a b : Option String) : Option String :=
  if jsTruthy a then a else b

/-- JavaScript a || b where the right operand is a plain string. -/
def jsOrStr (a : Option String) (b : String) : String :=
  if jsTruthy a then a.getD "" else b

/-- An optional string that is absent, empty, or whitespace-only. -/
def isBlankOpt : Option String → Bool
  | none => true
  | some s => strTrim s == ""

/-- Embedding of requireEnv (supabase/client.js line 3): the named env var
must be present and non-blank, otherwise a configuration error naming the
variable is thrown. -/
def requireEnv (env : String → Option String) (name : String) : Except String String :=
  match env name with
  | none => .error ("Missing required env var: " ++ name)
  | some v =>
    if v = "" ∨ strTrim v = "" then .error ("Missing required env var: " ++ name) else .ok v

/-- Embedding of requireEnvFromPair (supabase/client.js line 106): if the
explicit env var is set but blank, throw; if the already-resolved value is
falsy or blank, throw; otherwise return the value. -/
def requireEnvFromPair (env : String → Option String) (name : String) (value : Option String) :
    Except String String :=
  if (env name).isSome ∧ strTrim ((env name).getD "") = "" then
    .error ("Missing required env var: " ++ name)
  else if jsTruthy value = false ∨ strTrim (value.getD "") = "" then
    .error ("Missing required env var: " ++ name)
  else
    .ok (value.getD "")

/-- Resolution of an explicit/fallback env pair as the client factory composes
it: the value handed to requireEnvFromPair is explicit || fallback, as in
getAuthProjectEnv (supabase/client.js line 11) feeding createAnonClientWithJwt. -/
def resolvePair (env : String → Option String) (explicitName fallbackName : String) :
    Except String String :=
  requireEnvFromPair env explicitName (jsOr (env explicitName) (env fallbackName))

/-- Environment for the C1 counterexample: the explicit variable is set to a
whitespace-only value while the fallback is present and non-blank. -/
def envBlankExplicit : String → Option String := fun n =>
  if n = "ADMIN_AUTH_SUPABASE_URL" then some " "
  else if n = "SUPABASE_URL" then some "https://fallback.example" else none

/-- Embedding of createServiceClient (supabase/client.js line 39): the
privileged handle is built from the legacy shared variables SUPABASE_URL and
SUPABASE_SERVICE_ROLE_KEY via requireEnv; the handle is modelled by the
resolved endpoint/key pair. -/
def createServiceClient (env : String → Option String) : Except String (String × String) :=
  match requireEnv env "SUPABASE_URL" with
  | .error m => .error m
  | .ok url =>
    match requireEnv env "SUPABASE_SERVICE_ROLE_KEY" with
    | .error m => .error m
    | .ok key => .ok (url, key)

/-- Embedding of createAnonClientWithJwt (supabase/client.js line 85): the
endpoint and anonymous key are resolved through the ADMIN_AUTH explicit
variables with the legacy shared variables as fallback, and the caller jwt is
attached as the authorization header; the handle is modelled by the triple. -/
def createAnonClientWithJwt (env : String → Option String) (jwt : String) :
    Except String (String × String × String) :=
  match resolvePair env "ADMIN_AUTH_SUPABASE_URL" "SUPABASE_URL" with
  | .error m => .error m
  | .ok url =>
    match resolvePair env "ADMIN_AUTH_SUPABASE_ANON_KEY" "SUPABASE_ANON_KEY" with
    | .error m => .error m
    | .ok anon => .ok (url, anon, jwt)

/-- Environment for the C10 witness: both the ADMIN_AUTH project and the
legacy shared project are fully configured with distinct endpoints. -/
def envTwoProjects : String → Option String := fun n =>
  if n = "ADMIN_AUTH_SUPABASE_URL" then some "https://auth.example"
  else if n = "ADMIN_AUTH_SUPABASE_ANON_KEY" then some "anonkey"
  else if n = "SUPABASE_URL" then some "https://data.example"
  else if n = "SUPABASE_SERVICE_ROLE_KEY" then some "servicekey" else none

/-- Response envelope written on denial: HTTP status and the error string of
the JSON body. -/
structure Resp where
  status : Nat
  error : String
  deriving Repr, DecidableEq

/-- An authorized admin principal carrying the verified user id
(routes/admin.js line 69). -/
structure Principal where
  userId : String
  deriving Repr, DecidableEq

/-- Observable side effects of the gate, recorded in order of occurrence:
reading the authorization header, the identity-verification call, and the
role lookup against the data service. -/
inductive Effect where
  | readAuthHeader
  | verifyToken
  | roleLookup
  deriving Repr, DecidableEq

/-- Outcome of the identity verification call anon.auth.getUser
(routes/admin.js line 35): a rejected credential, a result carrying an
optional user id, or a thrown exception with an optional message. -/
inductive VerifyOutcome where
  | err
  | ok (userId : Option String)
  | exn (msg : Option String)
  deriving Repr, DecidableEq

/-- A profiles row as selected by the role lookup: the stored role may be
absent. -/
structure Profile where
  role : Option String
  deriving Repr, DecidableEq

/-- Outcome of the role lookup query (routes/admin.js line 53): a store error
with a message, a result carrying the profile or nothing (maybeSingle), or a
thrown exception with an optional message. -/
inductive RoleOutcome where
  | err (msg : String)
  | ok (profile : Option Profile)
  | exn (msg : Option String)
  deriving Repr, DecidableEq

/-- A request world: the ambient environment, the inbound authorization
header, and the oracle outcomes of the two remote calls the gate can make. -/
structure World where
  env : String → Option String
  authHeader : Option String
  verify : VerifyOutcome
  roleQuery : RoleOutcome

/-- Message of the feature-gate denial (routes/admin.js line 18). -/
def adminDisabledMsg : String :=
  "Admin portal is disabled on server. Set ALLOW_ADMIN_PORTAL=true (or ALLOW_DEV_BYPASS=true) in admin_backend/.env."

/-- Embedding of isAdminPortalAllowed (routes/admin.js line 8). -/
def isAdminPortalAllowed (env : String → Option String) : Bool :=
  strToLower ((env "ALLOW_ADMIN_PORTAL").getD "") == "true" ||
    strToLower ((env "ALLOW_DEV_BYPASS").getD "") == "true"

/-- Modelled from the spec: getBearerToken (src/supabase/auth.js, absent from
the available sources) reads the bearer token from the inbound authorization
header, yielding the token following the Bearer scheme and nothing when the
header is absent or carries no bearer credential. -/
def getBearerToken (authHeader : Option String) : Option String :=
  match authHeader with
  | none => none
  | some h =>
    if "Bearer ".data.isPrefixOf h.data then some ⟨h.data.drop 7⟩ else none

/-- Embedding of requireAdmin (routes/admin.js line 23) together with
requireAdminEnabled (line 14): the result is the principal on success, the
response written on denial, and the list of observable effects in order. A
thrown configuration error from client construction is derived from the
environment; the remote call outcomes come from the world oracle. -/
def requireAdmin (w : World) : Option Principal × Option Resp × List Effect :=
  if isAdminPortalAllowed w.env = false then
    (none, some ⟨403, adminDisabledMsg⟩, [])
  else
    let tok := getBearerToken w.authHeader
    if jsTruthy tok = false then
      (none, some ⟨401, "Missing Authorization: Bearer <token>"⟩, [.readAuthHeader])
    else
      match createAnonClientWithJwt w.env (tok.getD "") with
      | .error m =>
        (none, some ⟨500, jsOrStr (some m) "Auth check failed"⟩, [.readAuthHeader])
      | .ok _ =>
        match w.verify with
        | .exn m =>
          (none, some ⟨500, jsOrStr m "Auth check failed"⟩, [.readAuthHeader, .verifyToken])
        | .err =>
          (none, some ⟨401, "Invalid or expired token"⟩, [.readAuthHeader, .verifyToken])
        | .ok uid =>
          if jsTruthy uid = false then
            (none, some ⟨401, "Invalid or expired token"⟩, [.readAuthHeader, .verifyToken])
          else
            match createServiceClient w.env with
            | .error m =>
              (none, some ⟨500, jsOrStr (some m) "Admin check failed"⟩,
                [.readAuthHeader, .verifyToken])
            | .ok _ =>
              match w.roleQuery with
              | .exn m =>
                (none, some ⟨500, jsOrStr m "Admin check failed"⟩,
                  [.readAuthHeader, .verifyToken, .roleLookup])
              | .err m =>
                (none, some ⟨400, m⟩, [.readAuthHeader, .verifyToken, .roleLookup])
              | .ok profile =>
                if strToLower ((profile.bind Profile.role).getD "") ≠ "admin" then
                  (none, some ⟨403, "Admin access required"⟩,
                    [.readAuthHeader, .verifyToken, .roleLookup])
                else
                  (some ⟨uid.getD ""⟩, none, [.readAuthHeader, .verifyToken, .roleLookup])

/-- Environment for gate witnesses: only ALLOW_DEV_BYPASS enables the surface,
ALLOW_ADMIN_PORTAL is unset, and the single shared project is configured. -/
def envDevFull : String → Option String := fun n =>
  if n = "ALLOW_DEV_BYPASS" then some "true"
  else if n = "SUPABASE_URL" then some "https://p.example"
  else if n = "SUPABASE_ANON_KEY" then some "anonkey"
  else if n = "SUPABASE_SERVICE_ROLE_KEY" then some "servicekey" else none

/-- World for the C8 counterexample: identity verification throws an exception
carrying an internal message. -/
def wLeak : World :=
  ⟨envDevFull, some "Bearer t1", .exn (some "connect ECONNREFUSED 10.0.0.5:5432"), .err "x"⟩

/-- A scrap_rates row as selected and written by the handlers: commodity id,
rate per kg, active flag and the optional effective-from instant, with
timestamps modelled as natural numbers of milliseconds since the epoch. -/
structure RateRow where
  scrap_type_id : String
  rate_per_kg : Rat
  is_active : Bool
  effective_from : Option Nat
  deriving Repr, DecidableEq

/-- Timestamp used by the reduction loop (routes/admin.js lines 91 and 92):
the effective-from instant, with an absent value read as the epoch date 0. -/
def effDate (r : RateRow) : Nat := r.effective_from.getD 0

/-- Lookup in the insertion-ordered association list modelling the latest
Map. -/
def mapGet (m : List (String × RateRow)) (k : String) : Option RateRow :=
  match m with
  | [] => none
  | (k', v) :: rest => if k' = k then some v else mapGet rest k

/-- Map.set semantics: replace the entry in place when the key is present,
append at the end otherwise. -/
def mapSet (m : List (String × RateRow)) (k : String) (v : RateRow) :
    List (String × RateRow) :=
  match m with
  | [] => [(k, v)]
  | (k', v') :: rest => if k' = k then (k, v) :: rest else (k', v') :: mapSet rest k v

/-- One iteration of the reduction loop of getActiveRateByType
(routes/admin.js lines 85 to 94): a first row for the commodity is stored, a
later row replaces the stored one when its date is later or equal. -/
def rateStep (latest : List (String × RateRow)) (r : RateRow) : List (String × RateRow) :=
  match mapGet latest r.scrap_type_id with
  | none => mapSet latest r.scrap_type_id r
  | some prev => if effDate prev ≤ effDate r then mapSet latest r.scrap_type_id r else latest

/-- Embedding of getActiveRateByType (routes/admin.js line 76) applied to the
rows of the store: the query keeps the rows flagged active and the loop
reduces them to one row per commodity id. -/
def getActiveRateByType (rows : List RateRow) : List (String × RateRow) :=
  (rows.filter fun r => r.is_active).foldl rateStep []

/-- Later-or-equal-wins comparison of an accumulated row against the next
row of the stream. -/
def pickStep (acc : Option RateRow) (r : RateRow) : Option RateRow :=
  match acc with
  | none => some r
  | some p => if effDate p ≤ effDate r then some r else some p

/-- Reduction of a stream of rows to the latest one under later-or-equal
wins, in arrival order. -/
def pickLatest (rs : List RateRow) : Option RateRow := rs.foldl pickStep none

/-- Number of entries of the association list carrying a given key. -/
def keyCount (m : List (String × RateRow)) (k : String) : Nat :=
  (m.filter fun e => e.1 == k).length

/-- Store calls issued by the scrap-rates handler, in order. -/
inductive StoreCall where
  | deactivate
  | insert
  deriving Repr, DecidableEq

/-- Oracle for store failures of the two scrap-rates requests. -/
structure RateStoreOracle where
  deactErr : Option String
  insertErr : Option String
  deriving Repr, DecidableEq

/-- Embedding of the deactivation update (routes/admin.js line 233): every
active row of the commodity is marked inactive, other rows are untouched. -/
def deactivateRates (db : List RateRow) (id : String) : List RateRow :=
  db.map fun r =>
    if r.scrap_type_id == id && r.is_active then
      ⟨r.scrap_type_id, r.rate_per_kg, false, r.effective_from⟩
    else r

/-- Validation of the rate (routes/admin.js line 226): Number.isFinite and
strictly positive; a non-finite number (NaN or an infinity) is modelled as
none. -/
def rateFinitePos (rate : Option Rat) : Bool :=
  match rate with
  | none => false
  | some q => decide (0 < q)

/-- Embedding of the POST scrap-rates handler body after the gate
(routes/admin.js lines 222 to 257): validate the trimmed commodity id and the
rate, then issue the deactivate update followed by the insert, returning the
updated store, the outcome and the store calls issued in order. -/
def postScrapRates (db : List RateRow) (o : RateStoreOracle) (rawId : String)
    (rate : Option Rat) (now : Nat) :
    List RateRow × Except (Nat × String) RateRow × List StoreCall :=
  let scrapTypeId := strTrim rawId
  if scrapTypeId = "" then
    (db, .error (400, "scrapTypeId is required"), [])
  else if rateFinitePos rate = false then
    (db, .error (400, "ratePerKg must be a positive number"), [])
  else
    match o.deactErr with
    | some m => (db, .error (400, m), [.deactivate])
    | none =>
      let db1 := deactivateRates db scrapTypeId
      let row : RateRow := ⟨scrapTypeId, rate.getD 0, true, some now⟩
      match o.insertErr with
      | some m => (db1, .error (400, m), [.deactivate, .insert])
      | none => (db1 ++ [row], .ok row, [.deactivate, .insert])

/-- Number of active rows of the store for a given commodity id. -/
def countActive (db : List RateRow) (id : String) : Nat :=
  (db.filter fun r => r.scrap_type_id == id && r.is_active).length

/-- JavaScript a ?? b over options: nullish coalescing keeps every present
value, including empty strings and zero. -/
def jsNullish {α : Type} (a b : Option α) : Option α :=
  match a with
  | some v => some v
  | none => b

/-- A vendor_backends row as selected by the vendors handler. -/
structure VendorRow where
  vendor_id : Option String
  vendor_ref : Option String
  offer_url : Option String
  latitude : Option Rat
  longitude : Option Rat
  last_latitude : Option Rat
  last_longitude : Option Rat
  updated_at : Option String
  deriving Repr, DecidableEq

/-- The projected vendor row of the vendors response. -/
structure VendorOut where
  vendor_id : Option String
  vendor_ref : Option String
  offer_url : Option String
  latitude : Option Rat
  longitude : Option Rat
  updated_at : Option String
  deriving Repr, DecidableEq

/-- Embedding of the row projection of the vendors handler (routes/admin.js
lines 115 to 122): coordinates fall back to the last known ones via nullish
coalescing. -/
def vendorOut (v : VendorRow) : VendorOut :=
  ⟨v.vendor_id, v.vendor_ref, v.offer_url,
   jsNullish v.latitude v.last_latitude, jsNullish v.longitude v.last_longitude,
   v.updated_at⟩

/-- Outcome of the capped vendor select: a store error with a message, the
returned rows, or a thrown exception with an optional message. -/
inductive VendorQueryOutcome where
  | err (msg : String)
  | ok (rows : List VendorRow)
  | exn (msg : Option String)
  deriving Repr, DecidableEq

/-- Embedding of the GET vendors handler body after the gate (routes/admin.js
lines 110 to 128): build the service client inside the try block, so its
configuration error is caught, run the capped select, and translate the
outcomes: a store error to 400 with its message, rows to the projected list,
and a thrown exception to the 500 catch carrying the exception message or the
generic Admin request failed fallback. -/
def getVendors (env : String → Option String) (q : VendorQueryOutcome) :
    Except Resp (List VendorOut) :=
  match createServiceClient env with
  | .error m => .error ⟨500, jsOrStr (some m) "Admin request failed"⟩
  | .ok _ =>
    match q with
    | .err m => .error ⟨400, m⟩
    | .exn m => .error ⟨500, jsOrStr m "Admin request failed"⟩
    | .ok rows => .ok (rows.map vendorOut)

/-- Oracle for an unexpected exception thrown by a store call inside the
scrap-rates try block: no exception, or an exception with its optional
message thrown at the deactivate call or at the insert call. -/
inductive StoreExn where
  | nofail
  | atDeactivate (msg : Option String)
  | atInsert (msg : Option String)
  deriving Repr, DecidableEq

/-- Embedding of the POST scrap-rates handler body including its try and
catch (routes/admin.js lines 222 to 261): after validation the service client
is built inside the try block, so its configuration error is caught; an
unexpected exception thrown by either store call is caught as well, the catch
translating to a 500 response carrying the exception message or the generic
Admin request failed fallback; without an exception the body behaves as
postScrapRates. -/
def postScrapRatesFull (env : String → Option String) (ex : StoreExn)
    (db : List RateRow) (o : RateStoreOracle) (rawId : String) (rate : Option Rat)
    (now : Nat) :
    List RateRow × Except (Nat × String) RateRow × List StoreCall :=
  let scrapTypeId := strTrim rawId
  if scrapTypeId = "" then
    (db, .error (400, "scrapTypeId is required"), [])
  else if rateFinitePos rate = false then
    (db, .error (400, "ratePerKg must be a positive number"), [])
  else
    match createServiceClient env with
    | .error m => (db, .error (500, jsOrStr (some m) "Admin request failed"), [])
    | .ok _ =>
      match ex with
      | .atDeactivate m =>
        (db, .error (500, jsOrStr m "Admin request failed"), [.deactivate])
      | .atInsert m =>
        (deactivateRates db scrapTypeId, .error (500, jsOrStr m "Admin request failed"),
          [.deactivate, .insert])
      | .nofail => postScrapRates db o rawId rate now

/-- A string whose trim is nonempty is nonempty. -/
theorem strTrim_ne_empty {s : String} (h : strTrim s ≠ "") : s ≠ "" := by
  intro he
  exact h (by rw [he]; rfl)

/-- C1 counterexample: with the explicit variable present but whitespace-only
and the fallback present and non-blank, resolution throws the configuration
error instead of returning the fallback as the claim states. -/
theorem resolvePair_blank_explicit_counterexample :
    resolvePair envBlankExplicit "ADMIN_AUTH_SUPABASE_URL" "SUPABASE_URL" =
      .error "Missing required env var: ADMIN_AUTH_SUPABASE_URL" ∧
    resolvePair envBlankExplicit "ADMIN_AUTH_SUPABASE_URL" "SUPABASE_URL" ≠
      .ok "https://fallback.example" := by
  refine ⟨by rfl, ?_⟩
  intro h
  rw [show resolvePair envBlankExplicit "ADMIN_AUTH_SUPABASE_URL" "SUPABASE_URL" =
      .error "Missing required env var: ADMIN_AUTH_SUPABASE_URL" from rfl] at h
  exact Except.noConfusion h

/-- C1 (amended): if the explicit variable is present and non-blank, resolution
returns it verbatim; if the explicit variable is absent and the fallback is
present and non-blank, resolution returns the fallback; if the explicit
variable is present but blank, resolution fails with the configuration error
naming the variable regardless of the fallback; if both are absent or blank,
resolution fails with that error. -/
theorem resolvePair_resolution (env : String → Option String) (e f : String) :
    (∀ s, env e = some s → strTrim s ≠ "" → resolvePair env e f = .ok s) ∧
    (env e = none → ∀ v, env f = some v → strTrim v ≠ "" → resolvePair env e f = .ok v) ∧
    (∀ s, env e = some s → strTrim s = "" →
      resolvePair env e f = .error ("Missing required env var: " ++ e)) ∧
    (isBlankOpt (env e) = true → isBlankOpt (env f) = true →
      resolvePair env e f = .error ("Missing required env var: " ++ e)) := by
  refine ⟨?_, ?_, ?_, ?_⟩
  · intro s hs hne
    have hne' : s ≠ "" := strTrim_ne_empty hne
    simp [resolvePair, requireEnvFromPair, jsOr, jsTruthy, hs, hne, hne']
  · intro he v hv hne
    have hne' : v ≠ "" := strTrim_ne_empty hne
    simp [resolvePair, requireEnvFromPair, jsOr, jsTruthy, he, hv, hne, hne']
  · intro s hs hbl
    simp [resolvePair, requireEnvFromPair, hs, hbl]
  · intro hbe hbf
    cases he : env e with
    | some s =>
      have hbl : strTrim s = "" := by
        rw [he] at hbe
        simpa [isBlankOpt] using hbe
      simp [resolvePair, requireEnvFromPair, he, hbl]
    | none =>
      cases hf : env f with
      | none => simp [resolvePair, requireEnvFromPair, jsOr, jsTruthy, he, hf]
      | some v =>
        have hbl : strTrim v = "" := by
          rw [hf] at hbf
          simpa [isBlankOpt] using hbf
        by_cases hv : v = ""
        · simp [resolvePair, requireEnvFromPair, jsOr, jsTruthy, he, hf, hv]
        · simp [resolvePair, requireEnvFromPair, jsOr, jsTruthy, he, hf, hv, hbl]

/-- C1 witness: the amended resolution theorem applied at a concrete
environment holding only the non-blank explicit value. -/
theorem resolvePair_resolution_witness :
    resolvePair (fun n => if n = "A" then some "https://a.example" else none) "A" "B" =
      .ok "https://a.example" :=
  (resolvePair_resolution (fun n => if n = "A" then some "https://a.example" else none)
    "A" "B").1 "https://a.example" rfl (by decide)

/-- Helper: requireEnv depends only on the value of the named variable. -/
theorem requireEnv_congr {env env' : String → Option String} (name : String)
    (h : env name = env' name) : requireEnv env name = requireEnv env' name := by
  unfold requireEnv
  rw [h]

/-- C10: the privileged service client reads only the legacy shared variables
SUPABASE_URL and SUPABASE_SERVICE_ROLE_KEY, with no ADMIN_AUTH override, while
identity verification prefers ADMIN_AUTH_SUPABASE_URL; with both projects
configured and distinct endpoints the role lookup targets a different project
than the one that verified the credential. -/
theorem client_project_resolution :
    (∀ env env' : String → Option String,
      env "SUPABASE_URL" = env' "SUPABASE_URL" →
      env "SUPABASE_SERVICE_ROLE_KEY" = env' "SUPABASE_SERVICE_ROLE_KEY" →
      createServiceClient env = createServiceClient env') ∧
    (∀ (env : String → Option String) (jwt aurl akey surl skey : String),
      env "ADMIN_AUTH_SUPABASE_URL" = some aurl → strTrim aurl ≠ "" →
      env "ADMIN_AUTH_SUPABASE_ANON_KEY" = some akey → strTrim akey ≠ "" →
      env "SUPABASE_URL" = some surl → strTrim surl ≠ "" →
      env "SUPABASE_SERVICE_ROLE_KEY" = some skey → strTrim skey ≠ "" →
      aurl ≠ surl →
      createServiceClient env = .ok (surl, skey) ∧
      createAnonClientWithJwt env jwt = .ok (aurl, akey, jwt)) := by
  constructor
  · intro env env' h1 h2
    unfold createServiceClient
    rw [requireEnv_congr _ h1, requireEnv_congr _ h2]
  · intro env jwt aurl akey surl skey h1 h1t h2 h2t h3 h3t h4 h4t hne
    have h1e : aurl ≠ "" := strTrim_ne_empty h1t
    have h2e : akey ≠ "" := strTrim_ne_empty h2t
    have h3e : surl ≠ "" := strTrim_ne_empty h3t
    have h4e : skey ≠ "" := strTrim_ne_empty h4t
    constructor
    · simp [createServiceClient, requireEnv, h3, h4, h3t, h4t, h3e, h4e]
    · simp [createAnonClientWithJwt, resolvePair, requireEnvFromPair, jsOr, jsTruthy,
        h1, h2, h1t, h2t, h1e, h2e]

/-- C10 witness: the resolution theorem applied to the fully configured
two-project environment. -/
theorem client_project_resolution_witness :
    createServiceClient envTwoProjects = .ok ("https://data.example", "servicekey") ∧
    createAnonClientWithJwt envTwoProjects "jwt1" =
      .ok ("https://auth.example", "anonkey", "jwt1") :=
  client_project_resolution.2 envTwoProjects "jwt1" "https://auth.example" "anonkey"
    "https://data.example" "servicekey" rfl (by decide) rfl (by decide) rfl (by decide)
    rfl (by decide) (by decide)

/-- C4: when the admin surface is not enabled by configuration the gate denies
with 403 immediately and performs no observable effect: the authorization
header is not read, no credential is verified and no data-service call is
made. -/
theorem requireAdmin_disabled_403 (w : World) (h : isAdminPortalAllowed w.env = false) :
    requireAdmin w = (none, some ⟨403, adminDisabledMsg⟩, []) := by
  simp [requireAdmin, h]

/-- C4 witness: the feature-gate theorem applied to a world with an empty
environment, where even a valid credential and an admin role are ignored. -/
theorem requireAdmin_disabled_403_witness :
    requireAdmin ⟨fun _ => none, some "Bearer t1", .ok (some "u1"), .ok (some ⟨some "admin"⟩)⟩ =
      (none, some ⟨403, adminDisabledMsg⟩, []) :=
  requireAdmin_disabled_403 _ (by decide)

/-- C5: with the admin surface enabled, a request lacking a bearer credential
in the authorization header is denied 401 after only the header read: no
identity-verification call and no data-service call occurs. -/
theorem requireAdmin_missing_bearer_401 (w : World)
    (he : isAdminPortalAllowed w.env = true)
    (hb : jsTruthy (getBearerToken w.authHeader) = false) :
    requireAdmin w = (none, some ⟨401, "Missing Authorization: Bearer <token>"⟩,
      [Effect.readAuthHeader]) ∧
    Effect.verifyToken ∉ (requireAdmin w).2.2 ∧
    Effect.roleLookup ∉ (requireAdmin w).2.2 := by
  have h1 : requireAdmin w = (none, some ⟨401, "Missing Authorization: Bearer <token>"⟩,
      [Effect.readAuthHeader]) := by
    simp [requireAdmin, he, hb]
  refine ⟨h1, ?_, ?_⟩ <;> rw [h1] <;> simp

/-- C5 witness: the missing-bearer theorem applied to an enabled world whose
request carries no authorization header. -/
theorem requireAdmin_missing_bearer_401_witness :
    requireAdmin ⟨envDevFull, none, .ok (some "u1"), .ok (some ⟨some "admin"⟩)⟩ =
      (none, some ⟨401, "Missing Authorization: Bearer <token>"⟩, [Effect.readAuthHeader]) :=
  (requireAdmin_missing_bearer_401 ⟨envDevFull, none, .ok (some "u1"), .ok (some ⟨some "admin"⟩)⟩
    (by decide) (by decide)).1

/-- C6: once the gate is past identity verification with a nonempty user id
and the role lookup returns without error, a stored role differing from admin
case-insensitively, including an absent profile or an absent role, is denied
403 with no principal; a role equal to admin in any letter case yields the
principal carrying the verified user id. -/
theorem requireAdmin_role_check (w : World) (u : String)
    (he : isAdminPortalAllowed w.env = true)
    (hb : jsTruthy (getBearerToken w.authHeader) = true)
    (ha : ∃ c, createAnonClientWithJwt w.env ((getBearerToken w.authHeader).getD "") = .ok c)
    (hv : w.verify = .ok (some u)) (hu : u ≠ "")
    (hs : ∃ c, createServiceClient w.env = .ok c)
    (p : Option Profile) (hr : w.roleQuery = .ok p) :
    (strToLower ((p.bind Profile.role).getD "") ≠ "admin" →
      requireAdmin w = (none, some ⟨403, "Admin access required"⟩,
        [Effect.readAuthHeader, Effect.verifyToken, Effect.roleLookup])) ∧
    (strToLower ((p.bind Profile.role).getD "") = "admin" →
      requireAdmin w = (some ⟨u⟩, none,
        [Effect.readAuthHeader, Effect.verifyToken, Effect.roleLookup])) := by
  obtain ⟨ca, hca⟩ := ha
  obtain ⟨cs, hcs⟩ := hs
  have hbu : jsTruthy (some u) = true := by simp [jsTruthy, hu]
  constructor
  · intro hrole
    simp [requireAdmin, he, hb, hca, hv, hbu, hcs, hr, hrole]
  · intro hrole
    simp [requireAdmin, he, hb, hca, hv, hbu, hcs, hr, hrole]

/-- C6 witness: the role-check theorem applied twice at concrete worlds, once
with stored role user (denied 403) and once with stored role ADMIN (principal
yielded for the verified user id). -/
theorem requireAdmin_role_check_witness :
    requireAdmin ⟨envDevFull, some "Bearer t1", .ok (some "u1"), .ok (some ⟨some "user"⟩)⟩ =
      (none, some ⟨403, "Admin access required"⟩,
        [Effect.readAuthHeader, Effect.verifyToken, Effect.roleLookup]) ∧
    requireAdmin ⟨envDevFull, some "Bearer t1", .ok (some "u1"), .ok (some ⟨some "ADMIN"⟩)⟩ =
      (some ⟨"u1"⟩, none, [Effect.readAuthHeader, Effect.verifyToken, Effect.roleLookup]) :=
  ⟨(requireAdmin_role_check ⟨envDevFull, some "Bearer t1", .ok (some "u1"),
      .ok (some ⟨some "user"⟩)⟩ "u1" (by decide) (by decide)
      ⟨("https://p.example", "anonkey", "t1"), by rfl⟩ rfl (by decide)
      ⟨("https://p.example", "servicekey"), by rfl⟩ (some ⟨some "user"⟩) rfl).1 (by decide),
   (requireAdmin_role_check ⟨envDevFull, some "Bearer t1", .ok (some "u1"),
      .ok (some ⟨some "ADMIN"⟩)⟩ "u1" (by decide) (by decide)
      ⟨("https://p.example", "anonkey", "t1"), by rfl⟩ rfl (by decide)
      ⟨("https://p.example", "servicekey"), by rfl⟩ (some ⟨some "ADMIN"⟩) rfl).2 (by decide)⟩

/-- C8 counterexample: an uncaught exception during identity verification
produces a 500 response whose error string is the exception message itself,
an internal detail, not a generic message. -/
theorem requireAdmin_500_leak_counterexample :
    (requireAdmin wLeak).2.1 = some ⟨500, "connect ECONNREFUSED 10.0.0.5:5432"⟩ ∧
    "connect ECONNREFUSED 10.0.0.5:5432" ≠ "Auth check failed" := by
  exact ⟨by rfl, by decide⟩

/-- C8 (amended): a 500 response from any of the uncaught-exception branches,
the two gate branches, the vendors handler catch and the scrap-rates handler
catch, including the configuration error thrown by service-client
construction inside the handler try blocks, carries the underlying exception
message whenever that message is present and nonempty, and falls back to the
generic Auth check failed, Admin check failed or Admin request failed message
only when the exception has no usable message. -/
theorem admin_500_message (w : World) (env : String → Option String)
    (he : isAdminPortalAllowed w.env = true)
    (hb : jsTruthy (getBearerToken w.authHeader) = true)
    (ha : ∃ c, createAnonClientWithJwt w.env ((getBearerToken w.authHeader).getD "") = .ok c) :
    (∀ m, w.verify = .exn m →
      (requireAdmin w).2.1 = some ⟨500, jsOrStr m "Auth check failed"⟩) ∧
    (∀ u m, w.verify = .ok (some u) → u ≠ "" →
      (∃ c, createServiceClient w.env = .ok c) → w.roleQuery = .exn m →
      (requireAdmin w).2.1 = some ⟨500, jsOrStr m "Admin check failed"⟩) ∧
    (∀ m, (∃ c, createServiceClient env = .ok c) →
      getVendors env (.exn m) = .error ⟨500, jsOrStr m "Admin request failed"⟩) ∧
    (∀ mm, createServiceClient env = .error mm →
      ∀ q, getVendors env q = .error ⟨500, jsOrStr (some mm) "Admin request failed"⟩) ∧
    (∀ db o rawId rate now m, strTrim rawId ≠ "" → rateFinitePos rate = true →
      (∃ c, createServiceClient env = .ok c) →
      (postScrapRatesFull env (.atDeactivate m) db o rawId rate now).2.1 =
          .error (500, jsOrStr m "Admin request failed") ∧
        (postScrapRatesFull env (.atInsert m) db o rawId rate now).2.1 =
          .error (500, jsOrStr m "Admin request failed")) ∧
    (∀ ex db o rawId rate now mm, strTrim rawId ≠ "" → rateFinitePos rate = true →
      createServiceClient env = .error mm →
      (postScrapRatesFull env ex db o rawId rate now).2.1 =
        .error (500, jsOrStr (some mm) "Admin request failed")) := by
  obtain ⟨ca, hca⟩ := ha
  refine ⟨?_, ?_, ?_, ?_, ?_, ?_⟩
  · intro m hv
    simp [requireAdmin, he, hb, hca, hv]
  · intro u m hv hu hs hr
    obtain ⟨cs, hcs⟩ := hs
    have hbu : jsTruthy (some u) = true := by simp [jsTruthy, hu]
    simp [requireAdmin, he, hb, hca, hv, hbu, hcs, hr]
  · intro m hs
    obtain ⟨cs, hcs⟩ := hs
    simp [getVendors, hcs]
  · intro mm hcerr q
    simp [getVendors, hcerr]
  · intro db o rawId rate now m hid hrate hs
    obtain ⟨cs, hcs⟩ := hs
    constructor
    · simp [postScrapRatesFull, hid, hrate, hcs]
    · simp [postScrapRatesFull, hid, hrate, hcs]
  · intro ex db o rawId rate now mm hid hrate hcerr
    simp [postScrapRatesFull, hid, hrate, hcerr]

/-- C8 witness: the amended theorem applied at concrete inputs for a gate
branch, the vendors handler catch and the scrap-rates handler catch, the
exception message passed through verbatim each time. -/
theorem admin_500_message_witness :
    (requireAdmin wLeak).2.1 =
      some ⟨500, jsOrStr (some "connect ECONNREFUSED 10.0.0.5:5432") "Auth check failed"⟩ ∧
    getVendors envDevFull (.exn (some "boom detail")) =
      .error ⟨500, jsOrStr (some "boom detail") "Admin request failed"⟩ ∧
    (postScrapRatesFull envDevFull (.atInsert (some "boom detail")) [] ⟨none, none⟩ "cu"
        (some 3) 7).2.1 =
      .error (500, jsOrStr (some "boom detail") "Admin request failed") :=
  ⟨(admin_500_message wLeak envDevFull (by decide) (by decide)
      ⟨("https://p.example", "anonkey", "t1"), by rfl⟩).1
      (some "connect ECONNREFUSED 10.0.0.5:5432") rfl,
   (admin_500_message wLeak envDevFull (by decide) (by decide)
      ⟨("https://p.example", "anonkey", "t1"), by rfl⟩).2.2.1
      (some "boom detail") ⟨("https://p.example", "servicekey"), by rfl⟩,
   ((admin_500_message wLeak envDevFull (by decide) (by decide)
      ⟨("https://p.example", "anonkey", "t1"), by rfl⟩).2.2.2.2.1
      [] ⟨none, none⟩ "cu" (some 3) 7 (some "boom detail") (by decide) (by decide)
      ⟨("https://p.example", "servicekey"), by rfl⟩).2⟩

/-- C9: the admin surface is enabled exactly when ALLOW_ADMIN_PORTAL or
ALLOW_DEV_BYPASS equals true case-insensitively; in particular, with
ALLOW_DEV_BYPASS alone set and ALLOW_ADMIN_PORTAL unset the whole surface is
open and an admin request succeeds end to end. -/
theorem isAdminPortalAllowed_spec :
    (∀ env : String → Option String,
      isAdminPortalAllowed env = true ↔
        (strToLower ((env "ALLOW_ADMIN_PORTAL").getD "") = "true" ∨
         strToLower ((env "ALLOW_DEV_BYPASS").getD "") = "true")) ∧
    (envDevFull "ALLOW_ADMIN_PORTAL" = none ∧
      requireAdmin ⟨envDevFull, some "Bearer t1", .ok (some "u1"), .ok (some ⟨some "Admin"⟩)⟩ =
        (some ⟨"u1"⟩, none, [Effect.readAuthHeader, Effect.verifyToken, Effect.roleLookup])) := by
  constructor
  · intro env
    simp [isAdminPortalAllowed]
  · exact ⟨rfl, by rfl⟩

/-- C9 witness: the characterization applied to the dev-bypass environment. -/
theorem isAdminPortalAllowed_spec_witness :
    isAdminPortalAllowed envDevFull = true :=
  (isAdminPortalAllowed_spec.1 envDevFull).mpr (Or.inr (by decide))

/-- Reading the map after a set: the set key reads the new value, every other
key is unchanged. -/
theorem mapGet_mapSet (m : List (String × RateRow)) (k : String) (v : RateRow) (k' : String) :
    mapGet (mapSet m k v) k' = if k = k' then some v else mapGet m k' := by
  induction m with
  | nil => simp [mapSet, mapGet]
  | cons e rest ih =>
    obtain ⟨ek, ev⟩ := e
    by_cases h1 : ek = k
    · subst h1
      by_cases h2 : ek = k'
      · subst h2; simp [mapSet, mapGet]
      · simp [mapSet, mapGet, h2]
    · by_cases h2 : ek = k'
      · subst h2
        have hk : ¬ k = ek := fun hh => h1 hh.symm
        simp [mapSet, mapGet, h1, hk]
      · simp [mapSet, mapGet, h1, h2, ih]

/-- Unfolding of the reduction step when the commodity is not yet stored. -/
theorem rateStep_none {m : List (String × RateRow)} {r : RateRow}
    (hm : mapGet m r.scrap_type_id = none) :
    rateStep m r = mapSet m r.scrap_type_id r := by
  unfold rateStep
  rw [hm]

/-- Unfolding of the reduction step when the stored date is not later. -/
theorem rateStep_some_le {m : List (String × RateRow)} {r prev : RateRow}
    (hm : mapGet m r.scrap_type_id = some prev) (hle : effDate prev ≤ effDate r) :
    rateStep m r = mapSet m r.scrap_type_id r := by
  unfold rateStep
  rw [hm]
  exact if_pos hle

/-- Unfolding of the reduction step when the stored date is strictly later. -/
theorem rateStep_some_gt {m : List (String × RateRow)} {r prev : RateRow}
    (hm : mapGet m r.scrap_type_id = some prev) (hle : ¬ effDate prev ≤ effDate r) :
    rateStep m r = m := by
  unfold rateStep
  rw [hm]
  exact if_neg hle

/-- Reading the map after one reduction step: the key of the processed row
reads the later-or-equal-wins combination, other keys are unchanged. -/
theorem mapGet_rateStep (m : List (String × RateRow)) (r : RateRow) (k : String) :
    mapGet (rateStep m r) k =
      if r.scrap_type_id = k then pickStep (mapGet m k) r else mapGet m k := by
  cases hm : mapGet m r.scrap_type_id with
  | none =>
    rw [rateStep_none hm, mapGet_mapSet]
    by_cases h : r.scrap_type_id = k
    · subst h; simp [pickStep, hm]
    · simp [h]
  | some prev =>
    by_cases hle : effDate prev ≤ effDate r
    · rw [rateStep_some_le hm hle, mapGet_mapSet]
      by_cases h : r.scrap_type_id = k
      · subst h; simp [pickStep, hm, hle]
      · simp [h]
    · rw [rateStep_some_gt hm hle]
      by_cases h : r.scrap_type_id = k
      · subst h; simp [pickStep, hm, hle]
      · simp [h]

/-- Reading the map after the whole reduction loop equals the
later-or-equal-wins fold over the rows of that key, in arrival order. -/
theorem mapGet_foldl_rateStep (rs : List RateRow) (m : List (String × RateRow)) (k : String) :
    mapGet (rs.foldl rateStep m) k =
      (rs.filter fun r => r.scrap_type_id == k).foldl pickStep (mapGet m k) := by
  induction rs generalizing m with
  | nil => simp
  | cons r tl ih =>
    simp only [List.foldl_cons, List.filter_cons]
    by_cases h : r.scrap_type_id = k
    · simp [h, ih, mapGet_rateStep]
    · simp [h, ih, mapGet_rateStep]

/-- Key multiplicity after a set: the set key reaches multiplicity at least
one, other keys are unchanged. -/
theorem keyCount_mapSet (m : List (String × RateRow)) (k : String) (v : RateRow) (k' : String) :
    keyCount (mapSet m k v) k' = if k = k' then max 1 (keyCount m k') else keyCount m k' := by
  induction m with
  | nil =>
    by_cases h : k = k'
    · simp [mapSet, keyCount, h]
    · simp [mapSet, keyCount, h]
  | cons e rest ih =>
    obtain ⟨ek, ev⟩ := e
    by_cases h1 : ek = k
    · subst h1
      by_cases h2 : ek = k'
      · subst h2
        simp [mapSet, keyCount, List.filter_cons]
        try omega
      · simp [mapSet, keyCount, List.filter_cons, h2]
    · by_cases h2 : ek = k'
      · subst h2
        have hk : ¬ k = ek := fun hh => h1 hh.symm
        simp [mapSet, keyCount, List.filter_cons, h1, hk] at ih ⊢
        try rw [ih]
        try omega
      · simp [mapSet, keyCount, List.filter_cons, h1, h2] at ih ⊢
        try rw [ih]

/-- The reduction loop keeps at most one entry per commodity id. -/
theorem keyCount_foldl_rateStep (rs : List RateRow) (m : List (String × RateRow)) (k : String)
    (hm : ∀ k', keyCount m k' ≤ 1) : keyCount (rs.foldl rateStep m) k ≤ 1 := by
  induction rs generalizing m with
  | nil => exact hm k
  | cons r tl ih =>
    refine ih (rateStep m r) ?_
    intro k'
    cases hg : mapGet m r.scrap_type_id with
    | none =>
      rw [rateStep_none hg, keyCount_mapSet]
      have := hm k'
      split <;> omega
    | some prev =>
      by_cases hle : effDate prev ≤ effDate r
      · rw [rateStep_some_le hg hle, keyCount_mapSet]
        have := hm k'
        split <;> omega
      · rw [rateStep_some_gt hg hle]
        exact hm k'

/-- Characterization of getActiveRateByType: for every commodity id the
resulting map holds the later-or-equal-wins reduction of the active rows of
that id, in arrival order. -/
theorem getActiveRateByType_char (rows : List RateRow) (k : String) :
    mapGet (getActiveRateByType rows) k =
      pickLatest ((rows.filter fun r => r.is_active).filter fun r => r.scrap_type_id == k) := by
  unfold getActiveRateByType pickLatest
  rw [mapGet_foldl_rateStep]
  rfl

/-- C3: getActiveRateByType keeps at most one row per commodity id, for each
id the row kept is the later-or-equal-wins reduction over arrival order of the
active rows of that id, an absent effective-from is read as the earliest
possible instant, and for two active rows of one commodity with different
effective-from instants only the later one is kept. -/
theorem getActiveRateByType_latest (rows : List RateRow) (k : String) :
    keyCount (getActiveRateByType rows) k ≤ 1 ∧
    mapGet (getActiveRateByType rows) k =
      pickLatest ((rows.filter fun r => r.is_active).filter fun r => r.scrap_type_id == k) ∧
    (∀ r, r.effective_from = none → ∀ s, effDate r ≤ effDate s) ∧
    (∀ a b, a.scrap_type_id = k → b.scrap_type_id = k → a.is_active = true →
      b.is_active = true → effDate a < effDate b →
      mapGet (getActiveRateByType [a, b]) k = some b) := by
  refine ⟨?_, getActiveRateByType_char rows k, ?_, ?_⟩
  · exact keyCount_foldl_rateStep _ [] k (fun k' => by simp [keyCount])
  · intro r hr s
    simp [effDate, hr]
  · intro a b ha hb haa hba hlt
    rw [getActiveRateByType_char]
    simp [List.filter_cons, haa, hba, ha, hb, pickLatest, pickStep, Nat.le_of_lt hlt]

/-- C3 witness: the theorem applied to two concrete active rows of one
commodity, where only the later one is kept. -/
theorem getActiveRateByType_latest_witness :
    mapGet (getActiveRateByType [⟨"cu", 2, true, some 1⟩, ⟨"cu", 3, true, some 5⟩]) "cu" =
      some ⟨"cu", 3, true, some 5⟩ :=
  (getActiveRateByType_latest [⟨"cu", 2, true, some 1⟩, ⟨"cu", 3, true, some 5⟩] "cu").2.2.2
    ⟨"cu", 2, true, some 1⟩ ⟨"cu", 3, true, some 5⟩ rfl rfl rfl rfl (by decide)

/-- After the deactivation update no active row of the commodity remains. -/
theorem countActive_deactivate (db : List RateRow) (id : String) :
    countActive (deactivateRates db id) id = 0 := by
  induction db with
  | nil => rfl
  | cons r tl ih =>
    by_cases h1 : r.scrap_type_id = id
    · by_cases h2 : r.is_active = true
      · simpa [countActive, deactivateRates, List.filter_cons, h1, h2] using ih
      · have h2' : r.is_active = false := by
          cases hact : r.is_active
          · rfl
          · exact absurd hact h2
        simpa [countActive, deactivateRates, List.filter_cons, h1, h2'] using ih
    · simpa [countActive, deactivateRates, List.filter_cons, h1] using ih

/-- Every row of the commodity is inactive after the deactivation update. -/
theorem deactivate_inactive (db : List RateRow) (id : String) :
    ∀ r ∈ deactivateRates db id, r.scrap_type_id = id → r.is_active = false := by
  intro r hr hid
  simp only [deactivateRates, List.mem_map] at hr
  obtain ⟨s, hs, hfs⟩ := hr
  by_cases h : (s.scrap_type_id == id && s.is_active) = true
  · rw [if_pos h] at hfs
    subst hfs
    rfl
  · rw [if_neg h] at hfs
    subst hfs
    simp [hid] at h
    exact h

/-- C2: two back-to-back successful setRate calls for one commodity, executed
sequentially without interleaving, leave exactly one active row for that
commodity, namely the row inserted by the second call, the prior active rows
all ending inactive. -/
theorem setRate_twice_one_active (db db1 db2 : List RateRow) (o1 o2 : RateStoreOracle)
    (rawId : String) (r1 r2 : Option Rat) (t1 t2 : Nat) (row1 row2 : RateRow)
    (c1 c2 : List StoreCall)
    (hfirst : postScrapRates db o1 rawId r1 t1 = (db1, .ok row1, c1))
    (h2 : postScrapRates db1 o2 rawId r2 t2 = (db2, .ok row2, c2)) :
    countActive db2 (strTrim rawId) = 1 ∧
    ∀ r ∈ db2, r.is_active = true → r.scrap_type_id = strTrim rawId → r = row2 := by
  simp only [postScrapRates] at h2
  by_cases hid : strTrim rawId = ""
  · rw [if_pos hid] at h2
    simp [Prod.ext_iff] at h2
  rw [if_neg hid] at h2
  by_cases hrate : rateFinitePos r2 = false
  · rw [if_pos hrate] at h2
    simp [Prod.ext_iff] at h2
  rw [if_neg hrate] at h2
  cases hde : o2.deactErr with
  | some m =>
    rw [hde] at h2
    simp [Prod.ext_iff] at h2
  | none =>
    rw [hde] at h2
    cases hin : o2.insertErr with
    | some m =>
      rw [hin] at h2
      simp [Prod.ext_iff] at h2
    | none =>
      rw [hin] at h2
      simp only [Prod.ext_iff, Except.ok.injEq] at h2
      obtain ⟨hdb, hrow, hc⟩ := h2
      subst hdb
      subst hrow
      constructor
      · have h0 := countActive_deactivate db1 (strTrim rawId)
        simp only [countActive, List.filter_append] at h0 ⊢
        simp [h0]
      · intro r hr hact hid2
        rcases List.mem_append.mp hr with hL | hR
        · exact absurd hact (by simp [deactivate_inactive db1 (strTrim rawId) r hL hid2])
        · simpa using hR

/-- C2 witness: the theorem applied to a concrete store holding one prior
active row, with both calls succeeding. -/
theorem setRate_twice_one_active_witness :
    countActive
      [⟨"cu", 2, false, some 1⟩, ⟨"cu", 3, false, some 10⟩, ⟨"cu", 5, true, some 11⟩]
      (strTrim "cu") = 1 :=
  (setRate_twice_one_active [⟨"cu", 2, true, some 1⟩]
    [⟨"cu", 2, false, some 1⟩, ⟨"cu", 3, true, some 10⟩]
    [⟨"cu", 2, false, some 1⟩, ⟨"cu", 3, false, some 10⟩, ⟨"cu", 5, true, some 11⟩]
    ⟨none, none⟩ ⟨none, none⟩ "cu" (some 3) (some 5) 10 11
    ⟨"cu", 3, true, some 10⟩ ⟨"cu", 5, true, some 11⟩
    [.deactivate, .insert] [.deactivate, .insert] (by rfl) (by rfl)).1

/-- C7: the scrap-rates handler rejects with the 400 validation error, with no
store call issued and the store untouched, whenever the trimmed commodity id
is blank, and likewise whenever the rate is not a finite number strictly
greater than zero. -/
theorem postScrapRates_validation (db : List RateRow) (o : RateStoreOracle) (rawId : String)
    (rate : Option Rat) (now : Nat) :
    (strTrim rawId = "" →
      postScrapRates db o rawId rate now =
        (db, .error (400, "scrapTypeId is required"), [])) ∧
    (strTrim rawId ≠ "" → rateFinitePos rate = false →
      postScrapRates db o rawId rate now =
        (db, .error (400, "ratePerKg must be a positive number"), [])) := by
  constructor
  · intro h
    simp [postScrapRates, h]
  · intro h hr
    simp [postScrapRates, h, hr]

/-- C7 witness: the validation theorem applied to a blank commodity id with a
valid rate, and to a valid commodity id with rate minus one. -/
theorem postScrapRates_validation_witness :
    postScrapRates [] ⟨none, none⟩ "" (some 5) 0 =
      ([], .error (400, "scrapTypeId is required"), []) ∧
    postScrapRates [] ⟨none, none⟩ "x" (some (-1)) 0 =
      ([], .error (400, "ratePerKg must be a positive number"), []) :=
  ⟨(postScrapRates_validation [] ⟨none, none⟩ "" (some 5) 0).1 (by rfl),
   (postScrapRates_validation [] ⟨none, none⟩ "x" (some (-1)) 0).2 (by decide) (by decide)⟩

end ScrapCo
